import Mathlib

/-
Verification of the Wormly API client (internal/client/client.go and the
provider read path) against its natural-language specification.

The Go code is shallowly embedded: machine integers become Nat/Int
(durations are int64 nanoseconds, modelled as Int), float64 arithmetic on
the backoff multiplier is modelled as exact rational arithmetic with the
Go float-to-integer conversion (truncation toward zero) made explicit,
fallible operations return Except/Option, and the retrying request loop
of Do/makeFormRequest becomes a recursion over the remaining loop
iterations with an oracle assigning to every attempt index the outcome
(network error or HTTP response) that httpClient.Do produces there.
-/

namespace Wormly

/-! ## Go error values and the net.Error interface

client.go classifies errors with runtime type assertions
(`err.(net.Error)`, `err.(*url.Error)`, `err.(*net.OpError)`).  The
embedding keeps the dynamic types the source distinguishes.  Crucially,
in Go both `*url.Error` and `*net.OpError` themselves implement the
`net.Error` interface (both have Timeout and Temporary methods), so the
first type assertion in isTransientNetworkError already captures them.
-/

/-- Syscall error numbers distinguished by the source
(isTransientNetworkError, client.go:183). `otherno` stands for any other
errno. -/
inductive Errno : Type
  | econnrefused
  | econnreset
  | etimedout
  | otherno
deriving DecidableEq, Repr

/-- syscall.Errno.Timeout() in Go returns true exactly for
EAGAIN, EWOULDBLOCK and ETIMEDOUT; of these only ETIMEDOUT is
distinguished by the source, the rest fall under `otherno` (modelled as
non-timeout; no claim depends on EAGAIN/EWOULDBLOCK). -/
def Errno.timeoutSignal : Errno → Bool
  | .etimedout => true
  | _ => false

/-- Dynamic error values that can reach isTransientNetworkError:
a plain implementer of net.Error (such as the test doubles in
client_test.go) with its Timeout()/Temporary() results, a *url.Error
wrapping an inner error, a *net.OpError wrapping a syscall.Errno, or any
error that is not a network error at all. -/
inductive GoError : Type
  | netErr (timeout temporary : Bool)
  | urlErr (inner : GoError)
  | opErr (errno : Errno)
  | genericErr
deriving DecidableEq, Repr

/-- Whether the dynamic type of the error satisfies the net.Error
interface, i.e. whether the type assertion `err.(net.Error)` at
client.go:170 succeeds.  In Go, `*url.Error` and `*net.OpError` both
have Timeout() and Temporary() methods and therefore satisfy it. -/
def implementsNetError : GoError → Bool
  | .netErr _ _ => true
  | .urlErr _ => true
  | .opErr _ => true
  | .genericErr => false

/-- The result of calling the Timeout() method on the error, following
the Go standard library implementations: url.Error.Timeout() delegates
to the wrapped error when that error has a Timeout method (else false),
and net.OpError.Timeout() delegates to the wrapped syscall.Errno. -/
def goTimeout : GoError → Bool
  | .netErr t _ => t
  | .urlErr inner => implementsNetError inner && goTimeout inner
  | .opErr errno => errno.timeoutSignal
  | .genericErr => false

/-- Embedding of isTransientNetworkError (client.go:164-190) for a
non-nil error, with the source's check order: first the `net.Error`
type assertion (returning Timeout()), then the `*url.Error` unwrapping
recursion, then the `*net.OpError`/syscall.Errno switch. -/
def isTransientNetworkErrorAux (e : GoError) : Bool :=
  if implementsNetError e then goTimeout e
  else
    match e with
    | .urlErr inner => isTransientNetworkErrorAux inner
    | .opErr errno =>
        decide (errno = .econnrefused ∨ errno = .econnreset ∨ errno = .etimedout)
    | _ => false

/-- Embedding of isTransientNetworkError (client.go:164-190), with the
source's initial `err == nil` check. -/
def isTransientNetworkError : Option GoError → Bool
  | none => false
  | some e => isTransientNetworkErrorAux e

/-- Embedding of isTransientHTTPError (client.go:193-203): the switch
over http.StatusTooManyRequests, StatusInternalServerError,
StatusBadGateway, StatusServiceUnavailable, StatusGatewayTimeout. -/
def isTransientHTTPError (statusCode : Nat) : Bool :=
  statusCode = 429 || statusCode = 500 || statusCode = 502 ||
  statusCode = 503 || statusCode = 504

/-! ## Backoff

Go float64 values (the backoff multiplier; JSON numbers decoded into an
interface) are dyadic rationals, so every float64 is an exact fraction.
They are modelled as explicit numerator/denominator pairs with exact
arithmetic; float64 rounding of products is not modelled (all values in
the spec and the repository's own tests are exactly representable). -/

/-- A float64 value modelled as the exact fraction num/den (den is kept
positive at every use site). -/
structure GoFloat : Type where
  num : Int
  den : Nat
deriving DecidableEq, Repr

/-- Go conversion of a float64 to an integer type truncates toward
zero; this is that truncation for the exact fraction. -/
def GoFloat.trunc (m : GoFloat) : Int :=
  if 0 ≤ m.num then ((m.num.toNat / m.den : Nat) : Int)
  else -(((-m.num).toNat / m.den : Nat) : Int)

/-- `time.Duration(float64(current) * m)`: the exact product of an
integer and a float64 fraction, truncated toward zero. -/
def GoFloat.mulTrunc (m : GoFloat) (current : Int) : Int :=
  GoFloat.trunc ⟨current * m.num, m.den⟩

/-- Static client configuration relevant to the claims
(client.go:47-59).  Durations are int64 nanoseconds; maxRetries is a Go
int, taken nonnegative per the documented configuration invariant
(spec section 3: max retries >= 0); the float64 backoffMultiplier is
an exact fraction. -/
structure Config : Type where
  maxRetries : Nat
  initialBackoff : Int
  backoffMultiplier : GoFloat
  maxBackoff : Int
deriving DecidableEq, Repr

/-- Embedding of Client.calculateNextBackoff (client.go:155-161):
`next := time.Duration(float64(current) * c.backoffMultiplier)`,
returned unless it exceeds maxBackoff, in which case maxBackoff is
returned. -/
def calculateNextBackoff (c : Config) (current : Int) : Int :=
  let next : Int := c.backoffMultiplier.mulTrunc current
  if next > c.maxBackoff then c.maxBackoff else next

/-! ## The retrying request loop

Do (client.go:88-152) and makeFormRequest (client.go:205-312) share the
same retry loop `for attempt := 0; attempt <= c.maxRetries; attempt++`
around one `c.httpClient.Do(req)` per iteration; they differ only in
what they do with a response whose status is not transient.  The
network is modelled as an oracle assigning to each attempt index the
outcome httpClient.Do produces on that attempt.  The loop is embedded
as structural recursion on the number of loop iterations that may still
run, `gas = c.maxRetries + 1 - attempt`: the loop condition
`attempt <= c.maxRetries` becomes `gas > 0` and the retry condition
`attempt < c.maxRetries` becomes `gas > 1`.  Alongside its result the
loop returns the number of requests issued and the list of backoff
durations slept (`time.Sleep(backoff)` before each retry). -/

/-- The state of a response body as the caller will experience it:
whether io.ReadAll succeeds, whether json.Unmarshal into the result
target succeeds, and the body text used in formatted errors. -/
structure Body : Type where
  readOk : Bool
  decodeOk : Bool
  text : String
deriving DecidableEq, Repr

/-- What one call of c.httpClient.Do(req) produces: a network error
(nil response), or a response with a status code and a body. -/
inductive AttemptOutcome : Type
  | netFailure (e : GoError)
  | response (status : Nat) (body : Body)
deriving DecidableEq, Repr

/-- Whether an attempt outcome is retry-eligible, per the two
classifiers (client.go:118 and client.go:133). -/
def isTransientOutcome : AttemptOutcome → Bool
  | .netFailure e => isTransientNetworkError (some e)
  | .response s _ => isTransientHTTPError s

/-- The `lastErr` variable of the loops: the last transient failure
observed, either a network error or the formatted `HTTP <status>`
error. -/
inductive LastErr : Type
  | fromNet (e : GoError)
  | fromHTTP (status : Nat)
deriving DecidableEq, Repr

/-- The shared retry loop of Do and makeFormRequest, parameterized over
the four ways an iteration can leave the loop:
`onNet e` is `return nil, err` / `return err` (taken both for a
non-transient network error and for a transient one on the final
attempt — the source returns the raw `err` in both places);
`onHTTPLast s` is the `return nil, lastErr` / `return lastErr` for a
transient HTTP status on the final attempt;
`onResp s b` is the fall-through for a response with a non-transient
status (Do returns the response; makeFormRequest checks the status
class and decodes);
`onExhaust lastE` is the `return ... fmt.Errorf("request failed after
%d retries: %w", c.maxRetries, lastErr)` after the loop.
Returns (result, number of requests issued, backoffs slept). -/
def retryLoop {ρ : Type} (onNet : GoError → ρ) (onHTTPLast : Nat → ρ)
    (onResp : Nat → Body → ρ) (onExhaust : Option LastErr → ρ)
    (nextBackoff : Int → Int) (out : Nat → AttemptOutcome) :
    Nat → Nat → Int → Option LastErr → ρ × Nat × List Int
  | 0, _, _, lastE => (onExhaust lastE, 0, [])
  | gas + 1, attempt, backoff, _lastE =>
    match out attempt with
    | .netFailure e =>
      if isTransientNetworkError (some e) then
        if 0 < gas then
          let r := retryLoop onNet onHTTPLast onResp onExhaust nextBackoff out
            gas (attempt + 1) (nextBackoff backoff) (some (.fromNet e))
          (r.1, r.2.1 + 1, backoff :: r.2.2)
        else (onNet e, 1, [])
      else (onNet e, 1, [])
    | .response s b =>
      if isTransientHTTPError s then
        if 0 < gas then
          let r := retryLoop onNet onHTTPLast onResp onExhaust nextBackoff out
            gas (attempt + 1) (nextBackoff backoff) (some (.fromHTTP s))
          (r.1, r.2.1 + 1, backoff :: r.2.2)
        else (onHTTPLast s, 1, [])
      else (onResp s b, 1, [])

/-- Terminal outcome of Client.Do.  `limiterErr` is the
`rate limiter wait failed` return; `success s` is `return resp, nil`
(any response with a non-transient status, 2xx or not); `netError e` is
`return nil, err`; `httpError s` is `return nil, lastErr` with the
formatted `HTTP <status>` error; `exhausted lastE` is the
`request failed after %d retries` wrapping return after the loop. -/
inductive DoOutcome : Type
  | limiterErr
  | success (status : Nat)
  | netError (e : GoError)
  | httpError (status : Nat)
  | exhausted (lastE : Option LastErr)
deriving DecidableEq, Repr

/-- True on every outcome of Do that is an error return (everything
except `return resp, nil`). -/
def DoOutcome.isFailure : DoOutcome → Bool
  | .success _ => false
  | _ => true

/-- True exactly on the `request failed after %d retries: %w` wrapping
return of Do (client.go:151). -/
def DoOutcome.isExhausted : DoOutcome → Bool
  | .exhausted _ => true
  | _ => false

/-- Result of one call of Client.Do: its outcome, how many requests
were issued through c.httpClient.Do, how many times c.limiter.Wait was
called, and the backoff durations slept between attempts. -/
structure DoResult : Type where
  outcome : DoOutcome
  requests : Nat
  limiterWaits : Nat
  sleeps : List Int
deriving DecidableEq, Repr

/-- Embedding of Client.Do (client.go:88-152).  `limiterGranted` is
whether c.limiter.Wait(ctx) returns without error, i.e. whether the
caller's context stays alive until the limiter grants a token;
limiter.Wait is called once, before the retry loop.  Header injection
(client.go:96-104) does not affect any claim and is not modelled. -/
def Do (cfg : Config) (limiterGranted : Bool) (out : Nat → AttemptOutcome) : DoResult :=
  if limiterGranted then
    let r := retryLoop DoOutcome.netError DoOutcome.httpError
      (fun s _ => DoOutcome.success s) DoOutcome.exhausted
      (calculateNextBackoff cfg) out (cfg.maxRetries + 1) 0 cfg.initialBackoff none
    { outcome := r.1, requests := r.2.1, limiterWaits := 1, sleeps := r.2.2 }
  else
    { outcome := .limiterErr, requests := 0, limiterWaits := 1, sleeps := [] }

/-- Terminal outcome of Client.makeFormRequest.  `ok` is `return nil`;
`statusError s text` is the formatted `API request failed with status
<s>: <body>` return for a non-transient status outside [200,300);
`readErr` is `failed to read response body`; `decodeErr` is
`failed to decode response`; the rest are as in DoOutcome. -/
inductive FormOutcome : Type
  | limiterErr
  | ok
  | netError (e : GoError)
  | httpError (status : Nat)
  | statusError (status : Nat) (text : String)
  | readErr
  | decodeErr
  | exhausted (lastE : Option LastErr)
deriving DecidableEq, Repr

/-- True on every outcome of makeFormRequest that is an error return
(everything except `return nil`). -/
def FormOutcome.isFailure : FormOutcome → Bool
  | .ok => false
  | _ => true

/-- True exactly on the `request failed after %d retries: %w` wrapping
return of makeFormRequest (client.go:311). -/
def FormOutcome.isExhausted : FormOutcome → Bool
  | .exhausted _ => true
  | _ => false

/-- What makeFormRequest does with a response whose status is not
transient (client.go:280-308): non-2xx returns the formatted status and
body error (the error of the `io.ReadAll` there is discarded by the
source, so the body text is used as is); on 2xx, when the caller passed
a nil result target it returns nil at once, otherwise it reads the body
and JSON-decodes it into the target. -/
def formRespond (resultNil : Bool) (s : Nat) (b : Body) : FormOutcome :=
  if s < 200 || 300 ≤ s then .statusError s b.text
  else if resultNil then .ok
  else if !b.readOk then .readErr
  else if !b.decodeOk then .decodeErr
  else .ok

/-- Result of one call of Client.makeFormRequest, with the same
accounting as DoResult. -/
structure FormResult : Type where
  outcome : FormOutcome
  requests : Nat
  limiterWaits : Nat
  sleeps : List Int
deriving DecidableEq, Repr

/-- Embedding of Client.makeFormRequest (client.go:205-312).
c.limiter.Wait is called once, before the form payload is built and
before the retry loop.  `resultNil` is whether the caller passed a nil
result target.  The form payload construction (client.go:211-237)
affects no claim and is not modelled; http.NewRequestWithContext cannot
fail for the fixed method and configured base URL. -/
def makeFormRequest (cfg : Config) (limiterGranted : Bool) (resultNil : Bool)
    (out : Nat → AttemptOutcome) : FormResult :=
  if limiterGranted then
    let r := retryLoop FormOutcome.netError FormOutcome.httpError
      (formRespond resultNil) FormOutcome.exhausted
      (calculateNextBackoff cfg) out (cfg.maxRetries + 1) 0 cfg.initialBackoff none
    { outcome := r.1, requests := r.2.1, limiterWaits := 1, sleeps := r.2.2 }
  else
    { outcome := .limiterErr, requests := 0, limiterWaits := 1, sleeps := [] }

/-- The value returned when the final attempt still fails transiently:
the raw network error, or the formatted `HTTP <status>` error held in
lastErr (client.go:129, client.go:144, client.go:262, client.go:277). -/
def lastAttemptReturn {ρ : Type} (onNet : GoError → ρ) (onHTTPLast : Nat → ρ) :
    AttemptOutcome → ρ
  | .netFailure e => onNet e
  | .response s _ => onHTTPLast s

/-- The value returned when an attempt produces a non-transient
outcome: the raw network error, or the handler for a response with a
non-transient status. -/
def stopReturn {ρ : Type} (onNet : GoError → ρ) (onResp : Nat → Body → ρ) :
    AttemptOutcome → ρ
  | .netFailure e => onNet e
  | .response s b => onResp s b

/-! ## Concrete scenarios used by the claims -/

/-- The configuration of the spec's retry scenarios: max-retries 3,
initial backoff 100ms, multiplier 3, max backoff 200ms (durations in
nanoseconds). -/
def cfgRetry3 : Config :=
  { maxRetries := 3, initialBackoff := 100000000,
    backoffMultiplier := ⟨3, 1⟩, maxBackoff := 200000000 }

/-- Same configuration with max-retries 1. -/
def cfgRetry1 : Config :=
  { maxRetries := 1, initialBackoff := 100000000,
    backoffMultiplier := ⟨3, 1⟩, maxBackoff := 200000000 }

/-- A response body that reads and decodes fine. -/
def okBody : Body := { readOk := true, decodeOk := true, text := "ok" }

/-- A response body whose JSON decode fails. -/
def badJSONBody : Body := { readOk := true, decodeOk := false, text := "not json" }

/-- A server that always answers 500. -/
def always500 : Nat → AttemptOutcome := fun _ => .response 500 okBody

/-- A server that answers [500, 500, 200, 200, ...]. -/
def twice500then200 : Nat → AttemptOutcome := fun k =>
  if k < 2 then .response 500 okBody else .response 200 okBody

/-- A server that always answers 404. -/
def always404 : Nat → AttemptOutcome := fun _ =>
  .response 404 { readOk := true, decodeOk := true, text := "Not Found" }

/-- A server that always answers 200 with a body that fails to decode. -/
def always200badJSON : Nat → AttemptOutcome := fun _ => .response 200 badJSONBody

/-- A transport that always times out. -/
def alwaysTimeout : Nat → AttemptOutcome := fun _ => .netFailure (.netErr true false)

/-- A transport that always fails with an error reporting only
Temporary()=true, not Timeout(). -/
def alwaysTempOnly : Nat → AttemptOutcome := fun _ => .netFailure (.netErr false true)

/-- A transport that always fails with a *net.OpError carrying
syscall.ECONNREFUSED. -/
def alwaysConnRefused : Nat → AttemptOutcome := fun _ => .netFailure (.opErr .econnrefused)

/-! ## ScheduledDowntimePeriod.UnmarshalJSON (periodid tolerant decode)

The implementation lives with the ScheduledDowntimePeriod type in the
client package (bundled in src/internal/client/sensor_http_test.go,
lines 354-390): after decoding into an auxiliary struct whose PeriodID
field is an interface, it switches on the runtime type of that field. -/

/-- The runtime type of the decoded periodid value.  encoding/json
decodes JSON numbers in an interface to float64 (so the source's
`case int` is unreachable and is covered by `num`); `null` covers both
an explicit JSON null and an absent field (the interface stays nil);
`other` is any other JSON shape (bool, array, object). -/
inductive JSONValue : Type
  | str (s : String)
  | num (v : GoFloat)
  | null
  | other
deriving DecidableEq, Repr

/-- Decimal digit value of a character, else none. -/
def digitVal (c : Char) : Option Nat :=
  if 48 ≤ c.toNat ∧ c.toNat ≤ 57 then some (c.toNat - 48) else none

/-- A nonempty all-digit character list parsed as a natural number. -/
def parseDigits (cs : List Char) : Option Nat :=
  if cs.isEmpty then none
  else cs.foldl (fun acc c => acc.bind fun n => (digitVal c).map fun d => 10 * n + d)
    (some 0)

/-- Embedding of Go strconv.Atoi on a 64-bit platform: an optional sign
followed by at least one digit, rejected when the value falls outside
the int64 range (Go then reports ErrRange). -/
def atoi (s : String) : Option Int :=
  let signed : Option Int :=
    match s.data with
    | '+' :: rest => (parseDigits rest).map (fun n => (n : Int))
    | '-' :: rest => (parseDigits rest).map (fun n => -(n : Int))
    | cs => (parseDigits cs).map (fun n => (n : Int))
  signed.bind fun v =>
    if -9223372036854775808 ≤ v ∧ v ≤ 9223372036854775807 then some v else none

/-- Embedding of the periodid normalization in
ScheduledDowntimePeriod.UnmarshalJSON: `prev` is the value the ID field
already holds when the switch runs (0 for a freshly allocated struct,
and untouched by the auxiliary decode since the interface field shadows
it).  A nonempty string goes through strconv.Atoi (an error if that
fails), an empty string leaves the ID untouched, a number is truncated
to int, nil yields 0, and any other runtime type is an error. -/
def unmarshalPeriodID (prev : Int) (v : JSONValue) : Except String Int :=
  match v with
  | .str s =>
    if s ≠ "" then
      match atoi s with
      | some id => .ok id
      | none => .error ("failed to convert periodid string " ++ s ++ " to int")
    else .ok prev
  | .num f => .ok f.trunc
  | .null => .ok 0
  | .other => .error "unexpected type for periodid"

/-! ## The provider read path and its not-found classifier

hostResource.Read and isNotFoundError live in the provider package
(src/unnamed/part_004).  An error value is represented here by the
string its Error() method returns. -/

/-- Embedding of isNotFoundError (part_004:728-732):
`err != nil && err.Error() == "404 Not Found"`. -/
def isNotFoundError : Option String → Bool
  | none => false
  | some msg => msg == "404 Not Found"

/-- The message of the not-found error GetHost builds for a missing
host ID (host.go:106 and host.go:123):
`fmt.Errorf("host with ID %d not found", id)`. -/
def getHostNotFoundMessage (id : Int) : String :=
  "host with ID " ++ toString id ++ " not found"

/-- What hostResource.Read does after r.client.GetHost fails: remove
the resource from state, or raise a hard Client Error diagnostic. -/
inductive ReadAction : Type
  | removeFromState
  | hardFailure (diagnostic : String)
deriving DecidableEq, Repr

/-- True exactly on the resp.State.RemoveResource outcome. -/
def ReadAction.isRemove : ReadAction → Bool
  | .removeFromState => true
  | _ => false

/-- Embedding of the error branch of hostResource.Read
(part_004:625-633): when GetHost returns an error, remove the resource
from state if isNotFoundError accepts it, otherwise add the hard
`Unable to read host` diagnostic. -/
def hostReadOnGetHostError (errMsg : String) : ReadAction :=
  if isNotFoundError (some errMsg) then .removeFromState
  else .hardFailure ("Unable to read host, got error: " ++ errMsg)

deriving instance DecidableEq for Except

/-! ## Loop lemmas -/

/-- Every result the loop can produce from at least one remaining
iteration comes from one of the three in-loop returns; the after-loop
exhaustion return is unreachable. -/
theorem retryLoop_pred {ρ : Type} (P : ρ → Prop) (onNet : GoError → ρ)
    (onHTTPLast : Nat → ρ) (onResp : Nat → Body → ρ) (onExhaust : Option LastErr → ρ)
    (nb : Int → Int) (out : Nat → AttemptOutcome)
    (hN : ∀ e, P (onNet e)) (hH : ∀ s, P (onHTTPLast s)) (hR : ∀ s b, P (onResp s b)) :
    ∀ (gas : Nat), 0 < gas → ∀ (attempt : Nat) (backoff : Int) (lastE : Option LastErr),
      P (retryLoop onNet onHTTPLast onResp onExhaust nb out gas attempt backoff lastE).1 := by
  intro gas
  induction gas with
  | zero => omega
  | succ g ih =>
    intro _ attempt backoff lastE
    cases hout : out attempt with
    | netFailure e =>
      by_cases ht : isTransientNetworkError (some e) = true
      · rcases Nat.eq_zero_or_pos g with hg | hg
        · subst hg
          simp [retryLoop, hout, ht, hN]
        · simpa [retryLoop, hout, ht, hg] using ih hg (attempt + 1) (nb backoff) _
      · rw [Bool.not_eq_true] at ht
        simp [retryLoop, hout, ht, hN]
    | response s b =>
      by_cases ht : isTransientHTTPError s = true
      · rcases Nat.eq_zero_or_pos g with hg | hg
        · subst hg
          simp [retryLoop, hout, ht, hH]
        · simpa [retryLoop, hout, ht, hg] using ih hg (attempt + 1) (nb backoff) _
      · rw [Bool.not_eq_true] at ht
        simp [retryLoop, hout, ht, hR]

/-- When every attempt the loop can reach fails transiently, the loop
runs all its iterations, issues one request per iteration, and returns
the final attempt's error itself. -/
theorem retryLoop_all_transient {ρ : Type} (onNet : GoError → ρ)
    (onHTTPLast : Nat → ρ) (onResp : Nat → Body → ρ) (onExhaust : Option LastErr → ρ)
    (nb : Int → Int) (out : Nat → AttemptOutcome) :
    ∀ (gas : Nat), 0 < gas → ∀ (attempt : Nat) (backoff : Int) (lastE : Option LastErr),
      (∀ k, attempt ≤ k → k < attempt + gas → isTransientOutcome (out k) = true) →
      (retryLoop onNet onHTTPLast onResp onExhaust nb out gas attempt backoff lastE).1 =
        lastAttemptReturn onNet onHTTPLast (out (attempt + gas - 1)) ∧
      (retryLoop onNet onHTTPLast onResp onExhaust nb out gas attempt backoff lastE).2.1 =
        gas := by
  intro gas
  induction gas with
  | zero => omega
  | succ g ih =>
    intro _ attempt backoff lastE htrans
    have ht0 : isTransientOutcome (out attempt) = true :=
      htrans attempt (Nat.le_refl attempt) (by omega)
    cases hout : out attempt with
    | netFailure e =>
      rw [hout] at ht0
      simp only [isTransientOutcome] at ht0
      rcases Nat.eq_zero_or_pos g with hg | hg
      · subst hg
        simp [retryLoop, hout, ht0, lastAttemptReturn]
      · obtain ⟨ih1, ih2⟩ := ih hg (attempt + 1) (nb backoff) (some (.fromNet e))
          (fun k hk1 hk2 => htrans k (by omega) (by omega))
        have hidx : attempt + 1 + g - 1 = attempt + (g + 1) - 1 := by omega
        rw [hidx] at ih1
        simp [retryLoop, hout, ht0, hg, ih1, ih2]
    | response s b =>
      rw [hout] at ht0
      simp only [isTransientOutcome] at ht0
      rcases Nat.eq_zero_or_pos g with hg | hg
      · subst hg
        simp [retryLoop, hout, ht0, lastAttemptReturn]
      · obtain ⟨ih1, ih2⟩ := ih hg (attempt + 1) (nb backoff) (some (.fromHTTP s))
          (fun k hk1 hk2 => htrans k (by omega) (by omega))
        have hidx : attempt + 1 + g - 1 = attempt + (g + 1) - 1 := by omega
        rw [hidx] at ih1
        simp [retryLoop, hout, ht0, hg, ih1, ih2]

/-- When the first non-transient outcome within reach sits d attempts
ahead, the loop stops there: d+1 requests are issued and the result is
the stopping attempt's return. -/
theorem retryLoop_first_stop {ρ : Type} (onNet : GoError → ρ)
    (onHTTPLast : Nat → ρ) (onResp : Nat → Body → ρ) (onExhaust : Option LastErr → ρ)
    (nb : Int → Int) (out : Nat → AttemptOutcome) :
    ∀ (d gas : Nat), d < gas → ∀ (attempt : Nat) (backoff : Int) (lastE : Option LastErr),
      (∀ j, j < d → isTransientOutcome (out (attempt + j)) = true) →
      isTransientOutcome (out (attempt + d)) = false →
      (retryLoop onNet onHTTPLast onResp onExhaust nb out gas attempt backoff lastE).1 =
        stopReturn onNet onResp (out (attempt + d)) ∧
      (retryLoop onNet onHTTPLast onResp onExhaust nb out gas attempt backoff lastE).2.1 =
        d + 1 := by
  intro d
  induction d with
  | zero =>
    intro gas hd attempt backoff lastE hpre hstop
    obtain ⟨g, rfl⟩ : ∃ g, gas = g + 1 := ⟨gas - 1, by omega⟩
    rw [Nat.add_zero] at hstop
    cases hout : out attempt with
    | netFailure e =>
      rw [hout] at hstop
      simp only [isTransientOutcome] at hstop
      simp [retryLoop, hout, hstop, stopReturn]
    | response s b =>
      rw [hout] at hstop
      simp only [isTransientOutcome] at hstop
      simp [retryLoop, hout, hstop, stopReturn]
  | succ d ih =>
    intro gas hd attempt backoff lastE hpre hstop
    obtain ⟨g, rfl⟩ : ∃ g, gas = g + 1 := ⟨gas - 1, by omega⟩
    have hg : 0 < g := by omega
    have ht0 : isTransientOutcome (out attempt) = true := by
      have h := hpre 0 (by omega)
      rw [Nat.add_zero] at h
      exact h
    have hidx : attempt + 1 + d = attempt + (d + 1) := by omega
    have hpre1 : ∀ j, j < d → isTransientOutcome (out (attempt + 1 + j)) = true := by
      intro j hj
      have h := hpre (j + 1) (by omega)
      have : attempt + 1 + j = attempt + (j + 1) := by omega
      rw [this]
      exact h
    have hstop1 : isTransientOutcome (out (attempt + 1 + d)) = false := by
      rw [hidx]; exact hstop
    cases hout : out attempt with
    | netFailure e =>
      rw [hout] at ht0
      simp only [isTransientOutcome] at ht0
      obtain ⟨ih1, ih2⟩ := ih g (by omega) (attempt + 1) (nb backoff) (some (.fromNet e))
        hpre1 hstop1
      rw [hidx] at ih1
      simp [retryLoop, hout, ht0, hg, ih1, ih2]
    | response s b =>
      rw [hout] at ht0
      simp only [isTransientOutcome] at ht0
      obtain ⟨ih1, ih2⟩ := ih g (by omega) (attempt + 1) (nb backoff) (some (.fromHTTP s))
        hpre1 hstop1
      rw [hidx] at ih1
      simp [retryLoop, hout, ht0, hg, ih1, ih2]

/-- Do under all-transient outcomes: all maxRetries+1 attempts run and
the final attempt's error is returned as is. -/
theorem Do_all_transient (cfg : Config) (out : Nat → AttemptOutcome)
    (h : ∀ k, k ≤ cfg.maxRetries → isTransientOutcome (out k) = true) :
    (Do cfg true out).outcome =
      lastAttemptReturn DoOutcome.netError DoOutcome.httpError (out cfg.maxRetries) ∧
    (Do cfg true out).requests = cfg.maxRetries + 1 := by
  obtain ⟨h1, h2⟩ := retryLoop_all_transient DoOutcome.netError DoOutcome.httpError
    (fun s _ => DoOutcome.success s) DoOutcome.exhausted (calculateNextBackoff cfg) out
    (cfg.maxRetries + 1) (by omega) 0 cfg.initialBackoff none
    (fun k _ hk2 => h k (by omega))
  have hidx : 0 + (cfg.maxRetries + 1) - 1 = cfg.maxRetries := by omega
  rw [hidx] at h1
  simp [Do, h1, h2]

/-- makeFormRequest under all-transient outcomes: all maxRetries+1
attempts run and the final attempt's error is returned as is. -/
theorem makeFormRequest_all_transient (cfg : Config) (rn : Bool)
    (out : Nat → AttemptOutcome)
    (h : ∀ k, k ≤ cfg.maxRetries → isTransientOutcome (out k) = true) :
    (makeFormRequest cfg true rn out).outcome =
      lastAttemptReturn FormOutcome.netError FormOutcome.httpError (out cfg.maxRetries) ∧
    (makeFormRequest cfg true rn out).requests = cfg.maxRetries + 1 := by
  obtain ⟨h1, h2⟩ := retryLoop_all_transient FormOutcome.netError FormOutcome.httpError
    (formRespond rn) FormOutcome.exhausted (calculateNextBackoff cfg) out
    (cfg.maxRetries + 1) (by omega) 0 cfg.initialBackoff none
    (fun k _ hk2 => h k (by omega))
  have hidx : 0 + (cfg.maxRetries + 1) - 1 = cfg.maxRetries := by omega
  rw [hidx] at h1
  simp [makeFormRequest, h1, h2]

/-- Do when attempt k (0-indexed, within the retry budget) is the first
to produce a non-transient outcome: k+1 requests, and the stopping
attempt's return. -/
theorem Do_first_stop (cfg : Config) (out : Nat → AttemptOutcome) (k : Nat)
    (hk : k ≤ cfg.maxRetries)
    (hpre : ∀ j, j < k → isTransientOutcome (out j) = true)
    (hstop : isTransientOutcome (out k) = false) :
    (Do cfg true out).outcome =
      stopReturn DoOutcome.netError (fun s _ => DoOutcome.success s) (out k) ∧
    (Do cfg true out).requests = k + 1 := by
  obtain ⟨h1, h2⟩ := retryLoop_first_stop DoOutcome.netError DoOutcome.httpError
    (fun s _ => DoOutcome.success s) DoOutcome.exhausted (calculateNextBackoff cfg) out
    k (cfg.maxRetries + 1) (by omega) 0 cfg.initialBackoff none
    (fun j hj => by simpa using hpre j hj) (by simpa using hstop)
  rw [Nat.zero_add] at h1
  simp [Do, h1, h2]

/-- makeFormRequest when attempt k (0-indexed, within the retry budget)
is the first to produce a non-transient outcome: k+1 requests, and the
stopping attempt's return. -/
theorem makeFormRequest_first_stop (cfg : Config) (rn : Bool)
    (out : Nat → AttemptOutcome) (k : Nat) (hk : k ≤ cfg.maxRetries)
    (hpre : ∀ j, j < k → isTransientOutcome (out j) = true)
    (hstop : isTransientOutcome (out k) = false) :
    (makeFormRequest cfg true rn out).outcome =
      stopReturn FormOutcome.netError (formRespond rn) (out k) ∧
    (makeFormRequest cfg true rn out).requests = k + 1 := by
  obtain ⟨h1, h2⟩ := retryLoop_first_stop FormOutcome.netError FormOutcome.httpError
    (formRespond rn) FormOutcome.exhausted (calculateNextBackoff cfg) out
    k (cfg.maxRetries + 1) (by omega) 0 cfg.initialBackoff none
    (fun j hj => by simpa using hpre j hj) (by simpa using hstop)
  rw [Nat.zero_add] at h1
  simp [makeFormRequest, h1, h2]

/-! ## The claims -/

/-- Claim C1: through both Do and makeFormRequest with max retries R,
if every attempt up to R fails transiently then exactly R+1 requests
are issued and the call fails, and if attempt k (0-indexed, k ≤ R) is
the first with a non-transient outcome then exactly k+1 requests are
issued; concretely, with max-retries 3 and a server always returning
500 exactly 4 requests are made and the call fails, and with responses
[500, 500, 200] exactly 3 requests are made and the call succeeds. -/
theorem retry_request_counts :
    (∀ (cfg : Config) (out : Nat → AttemptOutcome) (rn : Bool),
      (∀ k, k ≤ cfg.maxRetries → isTransientOutcome (out k) = true) →
      (Do cfg true out).requests = cfg.maxRetries + 1 ∧
      (Do cfg true out).outcome.isFailure = true ∧
      (makeFormRequest cfg true rn out).requests = cfg.maxRetries + 1 ∧
      (makeFormRequest cfg true rn out).outcome.isFailure = true) ∧
    (∀ (cfg : Config) (out : Nat → AttemptOutcome) (rn : Bool) (k : Nat),
      k ≤ cfg.maxRetries →
      (∀ j, j < k → isTransientOutcome (out j) = true) →
      isTransientOutcome (out k) = false →
      (Do cfg true out).requests = k + 1 ∧
      (makeFormRequest cfg true rn out).requests = k + 1) ∧
    ((Do cfgRetry3 true always500).requests = 4 ∧
     (Do cfgRetry3 true always500).outcome.isFailure = true ∧
     (makeFormRequest cfgRetry3 true false always500).requests = 4 ∧
     (makeFormRequest cfgRetry3 true false always500).outcome.isFailure = true) ∧
    ((Do cfgRetry3 true twice500then200).requests = 3 ∧
     (Do cfgRetry3 true twice500then200).outcome = .success 200 ∧
     (makeFormRequest cfgRetry3 true false twice500then200).requests = 3 ∧
     (makeFormRequest cfgRetry3 true false twice500then200).outcome = .ok) := by
  refine ⟨?_, ?_, by decide, by decide⟩
  · intro cfg out rn h
    obtain ⟨hdo1, hdo2⟩ := Do_all_transient cfg out h
    obtain ⟨hf1, hf2⟩ := makeFormRequest_all_transient cfg rn out h
    refine ⟨hdo2, ?_, hf2, ?_⟩
    · rw [hdo1]
      cases out cfg.maxRetries <;> simp [lastAttemptReturn, DoOutcome.isFailure]
    · rw [hf1]
      cases out cfg.maxRetries <;> simp [lastAttemptReturn, FormOutcome.isFailure]
  · intro cfg out rn k hk hpre hstop
    exact ⟨(Do_first_stop cfg out k hk hpre hstop).2,
      (makeFormRequest_first_stop cfg rn out k hk hpre hstop).2⟩

/-- Witness for C1: the [500, 500, 200] scenario through the theorem's
first-non-transient part at k = 2. -/
theorem retry_request_counts_witness :
    (Do cfgRetry3 true twice500then200).requests = 3 ∧
    (makeFormRequest cfgRetry3 true false twice500then200).requests = 3 := by
  have h := retry_request_counts.2.1 cfgRetry3 twice500then200 false 2
    (by decide) (by decide) (by decide)
  exact h

/-- Claim C2: the backoff update is the pure function
next = min(current × multiplier, maxBackoff), depending only on the
current backoff and static configuration; from initial backoff 100ms
with multiplier 3 and maxBackoff 200ms the successive backoff values
are exactly 100ms, 200ms, 200ms, 200ms — the computed 300ms being
clamped to 200ms — and those are precisely the durations a run with
only transient failures sleeps. -/
theorem backoff_update :
    (∀ (cfg : Config) (current : Int),
      calculateNextBackoff cfg current =
        min (cfg.backoffMultiplier.mulTrunc current) cfg.maxBackoff) ∧
    [(calculateNextBackoff cfgRetry3)^[0] cfgRetry3.initialBackoff,
     (calculateNextBackoff cfgRetry3)^[1] cfgRetry3.initialBackoff,
     (calculateNextBackoff cfgRetry3)^[2] cfgRetry3.initialBackoff,
     (calculateNextBackoff cfgRetry3)^[3] cfgRetry3.initialBackoff] =
      [100000000, 200000000, 200000000, 200000000] ∧
    cfgRetry3.backoffMultiplier.mulTrunc 100000000 = 300000000 ∧
    calculateNextBackoff cfgRetry3 100000000 = 200000000 ∧
    (Do cfgRetry3 true always500).sleeps = [100000000, 200000000, 200000000] := by
  refine ⟨?_, by decide, by decide, by decide, by decide⟩
  intro cfg current
  simp only [calculateNextBackoff]
  split <;> omega

/-- Claim C7: when the caller's context is cancelled before the rate
limiter grants a token, both Do and makeFormRequest fail immediately
with the rate-limiter-wait error and issue zero requests. -/
theorem cancelled_limiter_no_requests :
    ∀ (cfg : Config) (rn : Bool) (out : Nat → AttemptOutcome),
      (Do cfg false out).outcome = DoOutcome.limiterErr ∧
      (Do cfg false out).requests = 0 ∧
      (makeFormRequest cfg false rn out).outcome = FormOutcome.limiterErr ∧
      (makeFormRequest cfg false rn out).requests = 0 := by
  intro cfg rn out
  exact ⟨rfl, rfl, rfl, rfl⟩

/-- The non-transient-response handler of makeFormRequest never yields
the retry-exhaustion outcome, and with a nil result target it yields
only the formatted status error or plain success. -/
theorem formRespond_shape (rn : Bool) (s : Nat) (b : Body) :
    (formRespond rn s b).isExhausted = false ∧
    (formRespond rn s b = .decodeErr → rn = false) ∧
    (formRespond rn s b = .readErr → rn = false) := by
  cases rn with
  | false =>
    refine ⟨?_, fun _ => rfl, fun _ => rfl⟩
    unfold formRespond
    repeat' split
    all_goals rfl
  | true =>
    unfold formRespond
    by_cases hc : (s < 200 || 300 ≤ s) = true
    · simp [hc, FormOutcome.isExhausted]
    · rw [Bool.not_eq_true] at hc
      simp [hc, FormOutcome.isExhausted]

/-- Claim C3 counterexample: a *net.OpError wrapping
syscall.ECONNREFUSED — a connection-refused socket fault — is
classified non-transient, contrary to the claim, and with max-retries 3
it is not retried: one request is issued and the raw error returned.
The syscall switch of isTransientNetworkError is unreachable because
*net.OpError itself satisfies net.Error and its Timeout() method is
false for ECONNREFUSED. -/
theorem connrefused_not_retried_counterexample :
    isTransientNetworkError (some (.opErr .econnrefused)) = false ∧
    (Do cfgRetry3 true alwaysConnRefused).requests = 1 ∧
    (Do cfgRetry3 true alwaysConnRefused).outcome = .netError (.opErr .econnrefused) ∧
    (makeFormRequest cfgRetry3 true false alwaysConnRefused).requests = 1 := by decide

/-- Claim C3 (amended): a non-nil error is transient iff its dynamic
type satisfies net.Error and its Timeout() method returns true — the
url-unwrapping and syscall branches of the classifier are unreachable
since *url.Error and *net.OpError themselves satisfy net.Error.  Hence
Temporary()-only errors are non-transient, an ETIMEDOUT socket fault is
transient through its own timeout signal, connection-refused and
connection-reset faults are non-transient, and every non-transient
network error stops the call at one request with the raw error
returned. -/
theorem transient_network_classification :
    (∀ e : GoError,
      isTransientNetworkErrorAux e = (implementsNetError e && goTimeout e)) ∧
    isTransientNetworkError none = false ∧
    (∀ t : Bool, isTransientNetworkError (some (.netErr false t)) = false) ∧
    (∀ t : Bool, isTransientNetworkError (some (.netErr true t)) = true) ∧
    isTransientNetworkError (some (.opErr .etimedout)) = true ∧
    isTransientNetworkError (some (.opErr .econnrefused)) = false ∧
    isTransientNetworkError (some (.opErr .econnreset)) = false ∧
    isTransientNetworkError (some (.urlErr (.opErr .econnrefused))) = false ∧
    (∀ (cfg : Config) (out : Nat → AttemptOutcome) (e : GoError) (rn : Bool),
      out 0 = .netFailure e → isTransientNetworkErrorAux e = false →
      (Do cfg true out).requests = 1 ∧
      (Do cfg true out).outcome = .netError e ∧
      (makeFormRequest cfg true rn out).requests = 1 ∧
      (makeFormRequest cfg true rn out).outcome = .netError e) := by
  refine ⟨?_, by decide, by decide, by decide, by decide, by decide, by decide,
    by decide, ?_⟩
  · intro e
    cases e <;> simp [isTransientNetworkErrorAux, implementsNetError, goTimeout]
  · intro cfg out e rn hout ht
    have hstop : isTransientOutcome (out 0) = false := by
      rw [hout]
      simpa [isTransientOutcome, isTransientNetworkError] using ht
    obtain ⟨hdo1, hdo2⟩ := Do_first_stop cfg out 0 (by omega)
      (fun j hj => absurd hj (by omega)) hstop
    obtain ⟨hf1, hf2⟩ := makeFormRequest_first_stop cfg rn out 0 (by omega)
      (fun j hj => absurd hj (by omega)) hstop
    rw [hout] at hdo1 hf1
    exact ⟨hdo2, by simpa [stopReturn] using hdo1, hf2, by simpa [stopReturn] using hf1⟩

/-- Witness for C3 (amended): an error reporting only Temporary()=true
is not retried — one request, the raw error back. -/
theorem transient_network_classification_witness :
    (Do cfgRetry3 true alwaysTempOnly).requests = 1 ∧
    (Do cfgRetry3 true alwaysTempOnly).outcome = DoOutcome.netError (.netErr false true) := by
  have h := transient_network_classification.2.2.2.2.2.2.2.2 cfgRetry3 alwaysTempOnly
    (.netErr false true) false rfl (by decide)
  exact ⟨h.1, h.2.1⟩

/-- Claim C4: an HTTP status is transient iff it lies in
{429, 500, 502, 503, 504}; any other status ends the call on the spot —
Do hands the response back as success, while makeFormRequest returns
the formatted status-and-body error for non-2xx and proceeds to decode
for 2xx. -/
theorem http_status_classification :
    (∀ s : Nat, isTransientHTTPError s = true ↔
      (s = 429 ∨ s = 500 ∨ s = 502 ∨ s = 503 ∨ s = 504)) ∧
    (∀ (cfg : Config) (out : Nat → AttemptOutcome) (s : Nat) (b : Body) (rn : Bool),
      out 0 = .response s b → isTransientHTTPError s = false →
      (Do cfg true out).requests = 1 ∧
      (Do cfg true out).outcome = .success s ∧
      (makeFormRequest cfg true rn out).requests = 1 ∧
      (makeFormRequest cfg true rn out).outcome = formRespond rn s b ∧
      (s < 200 ∨ 300 ≤ s →
        (makeFormRequest cfg true rn out).outcome = .statusError s b.text) ∧
      (200 ≤ s → s < 300 → (makeFormRequest cfg true true out).outcome = .ok)) := by
  constructor
  · intro s
    simp [isTransientHTTPError, or_assoc]
  · intro cfg out s b rn hout ht
    have hstop : isTransientOutcome (out 0) = false := by
      rw [hout]
      simpa [isTransientOutcome] using ht
    obtain ⟨hdo1, hdo2⟩ := Do_first_stop cfg out 0 (by omega)
      (fun j hj => absurd hj (by omega)) hstop
    obtain ⟨hf1, hf2⟩ := makeFormRequest_first_stop cfg rn out 0 (by omega)
      (fun j hj => absurd hj (by omega)) hstop
    obtain ⟨hft1, _⟩ := makeFormRequest_first_stop cfg true out 0 (by omega)
      (fun j hj => absurd hj (by omega)) hstop
    rw [hout] at hdo1 hf1 hft1
    simp only [stopReturn] at hdo1 hf1 hft1
    refine ⟨hdo2, hdo1, hf2, hf1, ?_, ?_⟩
    · intro hs
      rw [hf1]
      have hc : (s < 200 || 300 ≤ s) = true := by
        rcases hs with h | h <;> simp [h]
      simp [formRespond, hc]
    · intro h1 h2
      rw [hft1]
      have hc1 : ¬ s < 200 := by omega
      have hc2 : ¬ 300 ≤ s := by omega
      simp [formRespond, hc1, hc2]

/-- Witness for C4: a single 404 ends both paths at one request; Do
returns the response, makeFormRequest the formatted error. -/
theorem http_status_classification_witness :
    (Do cfgRetry3 true always404).requests = 1 ∧
    (Do cfgRetry3 true always404).outcome = DoOutcome.success 404 ∧
    (makeFormRequest cfgRetry3 true false always404).outcome =
      FormOutcome.statusError 404 "Not Found" := by
  have h := http_status_classification.2 cfgRetry3 always404 404
    { readOk := true, decodeOk := true, text := "Not Found" } false rfl (by decide)
  exact ⟨h.1, h.2.1, h.2.2.2.2.1 (by omega)⟩

/-- Claim C5 counterexample: with max-retries 3 and only transient
failures, the call fails with the final attempt's error itself — the
raw timeout error on the network path, the formatted `HTTP 500` error
on the status path — not with a retry-exhaustion error wrapping it: the
`request failed after N retries` return is never produced. -/
theorem exhaustion_not_wrapped_counterexample :
    (Do cfgRetry3 true alwaysTimeout).requests = 4 ∧
    (Do cfgRetry3 true alwaysTimeout).outcome = .netError (.netErr true false) ∧
    (Do cfgRetry3 true alwaysTimeout).outcome.isExhausted = false ∧
    (makeFormRequest cfgRetry3 true false always500).requests = 4 ∧
    (makeFormRequest cfgRetry3 true false always500).outcome = .httpError 500 ∧
    (makeFormRequest cfgRetry3 true false always500).outcome.isExhausted = false := by
  decide

/-- Claim C5 (amended): on exhausting all retries with only transient
failures, both paths return the last observed transient error itself —
the raw network error, or the formatted HTTP-status error held in
lastErr — and the after-loop retry-exhaustion wrapping return is
unreachable: no call of either path ever produces it. -/
theorem exhaustion_returns_last_error :
    (∀ (cfg : Config) (out : Nat → AttemptOutcome) (rn : Bool),
      (∀ k, k ≤ cfg.maxRetries → isTransientOutcome (out k) = true) →
      (Do cfg true out).outcome =
        lastAttemptReturn DoOutcome.netError DoOutcome.httpError (out cfg.maxRetries) ∧
      (makeFormRequest cfg true rn out).outcome =
        lastAttemptReturn FormOutcome.netError FormOutcome.httpError (out cfg.maxRetries)) ∧
    (∀ (cfg : Config) (g rn : Bool) (out : Nat → AttemptOutcome),
      (Do cfg g out).outcome.isExhausted = false ∧
      (makeFormRequest cfg g rn out).outcome.isExhausted = false) := by
  constructor
  · intro cfg out rn h
    exact ⟨(Do_all_transient cfg out h).1, (makeFormRequest_all_transient cfg rn out h).1⟩
  · intro cfg g rn out
    cases g with
    | false => exact ⟨rfl, rfl⟩
    | true =>
      constructor
      · have h := retryLoop_pred (fun o => DoOutcome.isExhausted o = false)
          DoOutcome.netError DoOutcome.httpError (fun s _ => DoOutcome.success s)
          DoOutcome.exhausted (calculateNextBackoff cfg) out
          (fun _ => rfl) (fun _ => rfl) (fun _ _ => rfl)
          (cfg.maxRetries + 1) (by omega) 0 cfg.initialBackoff none
        simpa [Do] using h
      · have h := retryLoop_pred (fun o => FormOutcome.isExhausted o = false)
          FormOutcome.netError FormOutcome.httpError (formRespond rn)
          FormOutcome.exhausted (calculateNextBackoff cfg) out
          (fun _ => rfl) (fun _ => rfl) (fun s b => (formRespond_shape rn s b).1)
          (cfg.maxRetries + 1) (by omega) 0 cfg.initialBackoff none
        simpa [makeFormRequest] using h

/-- Witness for C5 (amended): a permanent timeout with max-retries 3
ends in the raw timeout error being returned. -/
theorem exhaustion_returns_last_error_witness :
    (Do cfgRetry3 true alwaysTimeout).outcome = DoOutcome.netError (.netErr true false) := by
  have h := exhaustion_returns_last_error.1 cfgRetry3 alwaysTimeout false (by decide)
  exact h.1.trans (by decide)

/-- Claim C6 counterexample: with max-retries 1 and a server always
returning 500, Do issues 2 requests but calls limiter.Wait only once:
the generic path does not re-acquire the rate limiter before retry
attempts (limiter.Wait sits before the loop, client.go:91). -/
theorem do_limiter_not_reacquired_counterexample :
    (Do cfgRetry1 true always500).requests = 2 ∧
    (Do cfgRetry1 true always500).limiterWaits = 1 := by decide

/-- Claim C6 (amended): both Do and makeFormRequest call limiter.Wait
exactly once per logical call, before the first attempt; neither path
re-acquires the rate limiter on retries. -/
theorem limiter_acquired_once_per_call :
    ∀ (cfg : Config) (g rn : Bool) (out : Nat → AttemptOutcome),
      (Do cfg g out).limiterWaits = 1 ∧
      (makeFormRequest cfg g rn out).limiterWaits = 1 := by
  intro cfg g rn out
  cases g <;> exact ⟨rfl, rfl⟩

/-- Claim C8: the periodid field of a ScheduledDowntimePeriod may
arrive as a JSON string, number, or null, and every accepted shape
normalizes to one canonical integer: a nonempty numeric string parses
to its integer value, a float truncates to an integer, null yields 0,
and an empty string keeps the zero/absent sentinel of a freshly
allocated struct instead of producing an error. -/
theorem periodid_tolerant_decode :
    (∀ (prev : Int) (s : String) (n : Int), s ≠ "" → atoi s = some n →
      unmarshalPeriodID prev (.str s) = .ok n) ∧
    (∀ (prev : Int) (f : GoFloat), unmarshalPeriodID prev (.num f) = .ok f.trunc) ∧
    (∀ prev : Int, unmarshalPeriodID prev .null = .ok 0) ∧
    (∀ prev : Int, unmarshalPeriodID prev (.str "") = .ok prev) ∧
    unmarshalPeriodID 0 (.str "") = .ok 0 ∧
    unmarshalPeriodID 0 (.str "123") = .ok 123 ∧
    unmarshalPeriodID 0 (.num ⟨457, 10⟩) = .ok 45 ∧
    unmarshalPeriodID 0 .null = .ok 0 := by
  refine ⟨?_, fun prev f => rfl, fun prev => rfl, fun prev => rfl,
    by decide, by decide, by decide, rfl⟩
  intro prev s n hs hn
  simp [unmarshalPeriodID, hs, hn]

/-- Witness for C8: the string "7" decodes to the integer 7. -/
theorem periodid_tolerant_decode_witness :
    unmarshalPeriodID 0 (.str "7") = .ok 7 :=
  periodid_tolerant_decode.1 0 "7" 7 (by decide) (by decide)

/-- Claim C9 counterexample: the not-found error GetHost produces for
the missing host 42 has the message `host with ID 42 not found`, which
isNotFoundError (accepting only the literal `404 Not Found`) does not
recognize, so the read path raises a hard failure instead of removing
the resource from state. -/
theorem gethost_not_found_unrecognized_counterexample :
    isNotFoundError (some (getHostNotFoundMessage 42)) = false ∧
    (hostReadOnGetHostError (getHostNotFoundMessage 42)).isRemove = false := by decide

/-- Claim C9 (amended): the read path removes the resource from state
exactly when the error message is the literal `404 Not Found` and
propagates every other error as a hard failure; the not-found error
GetHost builds (`host with ID <id> not found`) never takes that
literal shape, so a missing host surfaces as a hard failure, not as
absence. -/
theorem not_found_read_path :
    (∀ msg : String,
      (hostReadOnGetHostError msg).isRemove = true ↔ msg = "404 Not Found") ∧
    hostReadOnGetHostError "404 Not Found" = .removeFromState ∧
    (∀ id : Int, isNotFoundError (some (getHostNotFoundMessage id)) = false) ∧
    (∀ id : Int, (hostReadOnGetHostError (getHostNotFoundMessage id)).isRemove = false) := by
  have hne : ∀ id : Int, getHostNotFoundMessage id ≠ "404 Not Found" := by
    intro id h
    have h1 := congrArg String.length h
    simp only [getHostNotFoundMessage, String.length_append] at h1
    have h2 : String.length "host with ID " = 13 := by decide
    have h3 : String.length " not found" = 10 := by decide
    have h4 : String.length "404 Not Found" = 13 := by decide
    rw [h2, h3, h4] at h1
    omega
  refine ⟨?_, by decide, ?_, ?_⟩
  · intro msg
    by_cases hc : msg = "404 Not Found"
    · subst hc
      simp [hostReadOnGetHostError, isNotFoundError, ReadAction.isRemove]
    · have hb : (msg == "404 Not Found") = false := beq_eq_false_iff_ne.mpr hc
      simp [hostReadOnGetHostError, isNotFoundError, ReadAction.isRemove, hb, hc]
  · intro id
    simp [isNotFoundError, beq_eq_false_iff_ne.mpr (hne id)]
  · intro id
    simp [hostReadOnGetHostError, isNotFoundError,
      beq_eq_false_iff_ne.mpr (hne id), ReadAction.isRemove]

/-- Witness for C9 (amended): instances of the theorem at host ID 7 and
at the one recognized message. -/
theorem not_found_read_path_witness :
    isNotFoundError (some (getHostNotFoundMessage 7)) = false ∧
    (hostReadOnGetHostError (getHostNotFoundMessage 7)).isRemove = false ∧
    hostReadOnGetHostError "404 Not Found" = ReadAction.removeFromState :=
  ⟨not_found_read_path.2.2.1 7, not_found_read_path.2.2.2 7, not_found_read_path.2.1⟩

/-- Claim C10: a makeFormRequest call with a nil result target returns
success on a 2xx response without reading or decoding the body — the
outcome does not depend on whether the body would read or decode — so
a decode (or body-read) error can only arise when the caller supplied a
non-nil result target. -/
theorem nil_result_skips_decode :
    (∀ (cfg : Config) (out : Nat → AttemptOutcome) (k s : Nat) (b : Body),
      k ≤ cfg.maxRetries →
      (∀ j, j < k → isTransientOutcome (out j) = true) →
      out k = .response s b → 200 ≤ s → s < 300 →
      (makeFormRequest cfg true true out).outcome = .ok ∧
      (makeFormRequest cfg true true out).requests = k + 1) ∧
    (∀ (s : Nat) (b : Body), 200 ≤ s → s < 300 → formRespond true s b = .ok) ∧
    (∀ (cfg : Config) (g rn : Bool) (out : Nat → AttemptOutcome),
      ((makeFormRequest cfg g rn out).outcome = .decodeErr → rn = false) ∧
      ((makeFormRequest cfg g rn out).outcome = .readErr → rn = false)) ∧
    (makeFormRequest cfgRetry3 true true always200badJSON).outcome = .ok ∧
    (makeFormRequest cfgRetry3 true false always200badJSON).outcome = .decodeErr := by
  have hresp : ∀ (s : Nat) (b : Body), 200 ≤ s → s < 300 → formRespond true s b = .ok := by
    intro s b h1 h2
    have hc1 : ¬ s < 200 := by omega
    have hc2 : ¬ 300 ≤ s := by omega
    simp [formRespond, hc1, hc2]
  refine ⟨?_, hresp, ?_, by decide, by decide⟩
  · intro cfg out k s b hk hpre hout h1 h2
    have hstop : isTransientOutcome (out k) = false := by
      rw [hout]
      simp [isTransientOutcome, isTransientHTTPError]
      omega
    obtain ⟨hf1, hf2⟩ := makeFormRequest_first_stop cfg true out k hk hpre hstop
    rw [hout] at hf1
    simp only [stopReturn] at hf1
    rw [hresp s b h1 h2] at hf1
    exact ⟨hf1, hf2⟩
  · intro cfg g rn out
    cases g with
    | false => exact ⟨(fun h => nomatch h), (fun h => nomatch h)⟩
    | true =>
      have h := retryLoop_pred
        (fun o => (o = FormOutcome.decodeErr → rn = false) ∧
          (o = FormOutcome.readErr → rn = false))
        FormOutcome.netError FormOutcome.httpError (formRespond rn)
        FormOutcome.exhausted (calculateNextBackoff cfg) out
        (fun e => ⟨(fun h => nomatch h), (fun h => nomatch h)⟩)
        (fun s => ⟨(fun h => nomatch h), (fun h => nomatch h)⟩)
        (fun s b => ⟨(formRespond_shape rn s b).2.1, (formRespond_shape rn s b).2.2⟩)
        (cfg.maxRetries + 1) (by omega) 0 cfg.initialBackoff none
      simpa [makeFormRequest] using h

/-- Witness for C10: a 200 response whose body would fail to decode
still yields success when the result target is nil. -/
theorem nil_result_skips_decode_witness :
    (makeFormRequest cfgRetry3 true true always200badJSON).outcome = FormOutcome.ok := by
  have h := nil_result_skips_decode.1 cfgRetry3 always200badJSON 0 200 badJSONBody
    (by decide) (fun j hj => absurd hj (by omega)) rfl (by decide) (by decide)
  exact h.1

end Wormly
